import Mathlib

set_option maxRecDepth 8000

/-!
Verification development for the Asymptote formatter module
(`mathics/formatter/asy.py`).

The module walks a scene of typed drawing primitives and emits Asymptote
drawing commands.  We embed the relevant functions shallowly:

* coordinates are pairs / triples of rationals (the Python floats arrive
  pre-resolved; every formatting claim we settle is exercised on decimally
  exact values, where the printf renderings modelled below agree with the
  Python ones);
* the collaborator functions imported from `mathics.formatter.asy_fns`
  (`asy_create_pens`, `asy_bezier`, `asy_color`) and from
  `mathics.core.formatter` (`lookup_method`) are not part of the covered
  source, so the embedded formatters take them as function parameters and
  the theorems quantify over them;
* Python's `%` string formatting of numbers is modelled by executable
  functions `fmtG` (the `g` conversion) and `fmtF` (the `f` conversion)
  over `ℚ`, with round-half-to-even rounding;
* stateful accumulation (`asy += ...`, `self.transforms.append`) becomes
  explicit list building.
-/

namespace Asy

/-- A 2D coordinate, the value of `coords.pos()` in the source. -/
abbrev Coord2 := ℚ × ℚ

/-- A 3D coordinate, the value of `coords.pos()[0]` in the source. -/
abbrev Coord3 := ℚ × ℚ × ℚ

/-- An RGBA color; `to_rgba()` returns the four components. -/
structure Color where
  r : ℚ
  g : ℚ
  b : ℚ
  a : ℚ
deriving DecidableEq

/-- Shape of the collaborator `asy_create_pens(edge_color, face_color,
stroke_width, is_face_element)` from `mathics.formatter.asy_fns` (not part
of the covered source): it is passed to each embedded formatter as a
parameter. -/
abbrev PenFn := Option Color → Option Color → Option ℚ → Bool → String

/-- Python `"".join(parts)` over a list built in accumulation order. -/
def strJoin : List String → String
  | [] => ""
  | s :: rest => s ++ strJoin rest

/-- Python `sep.join(parts)`: the separator goes between consecutive
entries only. -/
def strJoinSep (sep : String) : List String → String
  | [] => ""
  | s :: rest =>
    match rest with
    | [] => s
    | _ :: _ => s ++ sep ++ strJoinSep sep rest

/-- The decimal digit characters. -/
def digitChar : Nat → Char
  | 0 => '0'
  | 1 => '1'
  | 2 => '2'
  | 3 => '3'
  | 4 => '4'
  | 5 => '5'
  | 6 => '6'
  | 7 => '7'
  | 8 => '8'
  | _ => '9'

/-- Decimal digits of `n`, most significant first; fuel-driven so that it
reduces in the kernel. The fuel `n + 1` always suffices. -/
def natDigitsAux : Nat → Nat → List Char → List Char
  | 0, _, acc => acc
  | fuel + 1, n, acc =>
    if n < 10 then digitChar n :: acc
    else natDigitsAux fuel (n / 10) (digitChar (n % 10) :: acc)

/-- Decimal rendering of a natural number. -/
def natDigits (n : Nat) : String := String.mk (natDigitsAux (n + 1) n [])

/-- Number of decimal digits of `n` (1 for `n = 0`). -/
def numDigits (n : Nat) : Nat := (natDigits n).length

/-- Powers of ten. -/
def pow10 : Nat → Nat
  | 0 => 1
  | n + 1 => 10 * pow10 n

/-- The rational `n` (kernel-reducible numeral). -/
def qofNat (n : Nat) : ℚ := mkRat n 1

/-- Strict comparison on `ℚ` through the executable core primitive, so
that concrete instances reduce inside the kernel. -/
def qlt (x y : ℚ) : Bool := Rat.blt x y

/-- Multiplication on `ℚ` in a kernel-reducible form (the library's
`Rat.mul` is deliberately irreducible); agrees with it on every input. -/
def qmul (a b : ℚ) : ℚ := mkRat (a.num * b.num) (a.den * b.den)

/-- Subtraction on `ℚ` in a kernel-reducible form. -/
def qsub (a b : ℚ) : ℚ :=
  mkRat (a.num * (b.den : Int) - b.num * (a.den : Int)) (a.den * b.den)

/-- Absolute value on `ℚ`, kept as a plain conditional so concrete values
reduce by `decide`. -/
def qabs (x : ℚ) : ℚ := if qlt x (mkRat 0 1) then Rat.neg x else x

/-- Floor of a rational (the denominator of `ℚ` is positive). -/
def qfloor (q : ℚ) : Int := q.num.fdiv q.den

/-- Ceiling of a rational. -/
def qceil (q : ℚ) : Int := -qfloor (Rat.neg q)

/-- Ten to an integer power, as a rational. -/
def qpow10 (k : Int) : ℚ :=
  if 0 ≤ k then mkRat (pow10 k.toNat) 1 else mkRat 1 (pow10 (-k).toNat)

/-- Round to the nearest integer, ties to even — the rounding performed by
the C library when printf converts a binary value that sits exactly on a
half (and the correct rounding everywhere else). -/
def roundHalfEven (q : ℚ) : Int :=
  let f := qfloor q
  let r := qsub q (mkRat f 1)
  if qlt r (mkRat 1 2) then f
  else if qlt (mkRat 1 2) r then f + 1
  else if f % 2 = 0 then f else f + 1

/-- Reciprocal of a positive rational, executable form. -/
def qinv (q : ℚ) : ℚ :=
  if q.num < 0 then mkRat (-(q.den : Int)) q.num.natAbs else mkRat q.den q.num.natAbs

/-- Decimal exponent of a positive rational: the `e` with
`10 ^ e ≤ q < 10 ^ (e + 1)`. -/
def decExp (q : ℚ) : Int :=
  if qlt q (mkRat 1 1) then -(numDigits ((qceil (qinv q)).toNat - 1) : Int)
  else (numDigits (qfloor q).toNat : Int) - 1

/-- Drop trailing `'0'` characters. -/
def stripZeros (s : String) : String :=
  String.mk ((s.data.reverse.dropWhile (fun c => c = '0')).reverse)

/-- Left-pad with spaces to width `w` — the minimum-field-width part of a
printf conversion such as `%5g`. -/
def padLeft (w : Nat) (s : String) : String :=
  String.mk (List.replicate (w - s.length) ' ') ++ s

/-- Model of the printf `g` conversion with precision `P ≥ 1` on a
rational value: round to `P` significant digits, use scientific style when
the decimal exponent is below `-4` or at least `P`, and strip trailing
zeros of the fractional part. -/
def fmtG (P : Nat) (x : ℚ) : String :=
  if x.num = 0 then "0"
  else
    let sign := if qlt x (mkRat 0 1) then "-" else ""
    let a := qabs x
    let e0 := decExp a
    let m0 := roundHalfEven (qmul a (qpow10 ((P : Int) - 1 - e0)))
    let me : Int × Int :=
      if m0 = (pow10 P : Int) then ((pow10 (P - 1) : Int), e0 + 1) else (m0, e0)
    let D := natDigits me.1.toNat
    let e := me.2
    if e < -4 ∨ (P : Int) ≤ e then
      let frac := stripZeros (D.drop 1)
      let mant := D.take 1 ++ (if frac = "" then "" else "." ++ frac)
      let eabs := natDigits e.natAbs
      sign ++ mant ++ "e" ++ (if e < 0 then "-" else "+") ++
        (if e.natAbs < 10 then "0" ++ eabs else eabs)
    else if 0 ≤ e then
      let ip := D.take (e.toNat + 1)
      let fp := stripZeros (D.drop (e.toNat + 1))
      sign ++ ip ++ (if fp = "" then "" else "." ++ fp)
    else
      sign ++ "0." ++ String.mk (List.replicate (e.natAbs - 1) '0') ++ stripZeros D

/-- Model of the printf `f` conversion with the default precision 6:
six digits after the decimal point. -/
def fmtF (x : ℚ) : String :=
  let sign := if qlt x (mkRat 0 1) then "-" else ""
  let m := (roundHalfEven (qmul (qabs x) (mkRat (pow10 6) 1))).toNat
  let D0 := natDigits m
  let D := if D0.length < 7 then
      String.mk (List.replicate (7 - D0.length) '0') ++ D0
    else D0
  sign ++ D.take (D.length - 6) ++ "." ++ D.drop (D.length - 6)

/-- Number of (possibly overlapping) occurrences of `pat` in `s`,
counted over the underlying character lists. -/
def countSubstrAux (pat : List Char) : List Char → Nat
  | [] => 0
  | c :: rest =>
    (if List.isPrefixOf pat (c :: rest) then 1 else 0) + countSubstrAux pat rest

/-- Number of occurrences of the pattern `pat` inside `s`. -/
def countSubstr (pat s : String) : Nat := countSubstrAux pat.data s.data

/-- Exceptions a formatter run can raise.  `nameError` models Python's
`NameError` (an unbound identifier evaluated at run time), `indexError`
models an out-of-range subscript, and `custom` stands for any exception
escaping a registered formatting function. -/
inductive PyError where
  | nameError
  | indexError
  | custom (msg : String)
deriving DecidableEq

/-- One child of a scene, as `graphicselements` observes it.  The field
`format_fn` is the result of `lookup_method(element, "asy")` combined with
the outcome of calling the found function on the element: `none` when no
formatter is registered for the element's type, `some r` when one is
registered and calling it returns text or raises.  The field `to_asy` is
the element's own default conversion capability (`element.to_asy`), `some`
of the text it would return when the element provides the method. -/
structure Element where
  format_fn : Option (Except PyError String)
  to_asy : Option String

/-- The per-child loop of `graphicselements` (lines 184-193 of
`mathics/formatter/asy.py`), returning the `result` list.  In the
unregistered branch the source reads `result.append(element.to_asy(offset))`;
the name `offset` is bound nowhere in the module or the function, so Python
raises `NameError` while evaluating the argument, before `to_asy` is ever
invoked — hence the `none` branch errors without consulting `to_asy`.  An
exception from a registered formatter likewise aborts the loop. -/
def graphicselementsAux : List Element → Except PyError (List String)
  | [] => Except.ok []
  | e :: rest =>
    match e.format_fn with
    | none => Except.error PyError.nameError
    | some (Except.error err) => Except.error err
    | some (Except.ok s) => (graphicselementsAux rest).map (fun l => s :: l)

/-- The container formatter `graphicselements` (also aliased to
`graphics3delements` in the source): dispatch every child in sequence
order and return `"\n".join(result)`. -/
def graphicselements (elements : List Element) : Except PyError String :=
  (graphicselementsAux elements).map (fun l => strJoinSep "\n" l)

/-- An element whose registered formatter returns the text `s`. -/
def okElement (s : String) : Element := ⟨some (Except.ok s), none⟩

/-- The accumulated state of `_ASYTransform`: the `self.transforms` list
of already-rendered operation strings. -/
structure ASYTransform where
  transforms : List String

/-- The fresh transform stack built by `_ASYTransform.__init__`. -/
def ASYTransform.init : ASYTransform := ⟨[]⟩

/-- The `_ASYTransform._template` string with its two `%s` slots filled:
slot one is the composed transform, slot two the wrapped body. -/
def ASYTransform.template (t1 body : String) : String :=
  "\n    add(" ++ t1 ++ " * (new picture() \x7b\n        picture saved = currentpicture;\n        picture transformed = new picture;\n        currentpicture = transformed;\n        " ++
    body ++
    "\n        currentpicture = saved;\n        return transformed;\n    \x7d)());\n    "

/-- Model of `_ASYTransform.matrix(a, b, c, d, e, f)`: append the affine matrix as
an Asymptote transform tuple; the source re-emits the row-major input in
the order `(e, f, a, c, b, d)` through `"(%f, %f, %f, %f, %f, %f)"`. -/
def ASYTransform.matrix (t : ASYTransform) (a b c d e f : ℚ) : ASYTransform :=
  ⟨t.transforms ++
    ["(" ++ fmtF e ++ ", " ++ fmtF f ++ ", " ++ fmtF a ++ ", " ++ fmtF c ++
      ", " ++ fmtF b ++ ", " ++ fmtF d ++ ")"]⟩

/-- Model of `_ASYTransform.translate(x, y)`. -/
def ASYTransform.translate (t : ASYTransform) (x y : ℚ) : ASYTransform :=
  ⟨t.transforms ++ ["shift(" ++ fmtF x ++ ", " ++ fmtF y ++ ")"]⟩

/-- Model of `_ASYTransform.scale(x, y)`. -/
def ASYTransform.scale (t : ASYTransform) (x y : ℚ) : ASYTransform :=
  ⟨t.transforms ++ ["scale(" ++ fmtF x ++ ", " ++ fmtF y ++ ")"]⟩

/-- Model of `_ASYTransform.rotate(x)`. -/
def ASYTransform.rotate (t : ASYTransform) (x : ℚ) : ASYTransform :=
  ⟨t.transforms ++ ["rotate(" ++ fmtF x ++ ")"]⟩

/-- Model of `_ASYTransform.apply(asy)`: join the accumulated operations with
`" * "` and wrap the body in the save/restore template. -/
def ASYTransform.apply (t : ASYTransform) (asy : String) : String :=
  ASYTransform.template (strJoinSep " * " t.transforms) asy

/-- The 2D coordinate rendering `"(%.5g,%5g)" % xy` shared by `linebox`
and the arrowhead `polygon` helper of `arrowbox`: note the second
conversion is `%5g` — field width 5, *default* precision 6 — not `%.5g`. -/
def asyPoint2 (p : Coord2) : String :=
  "(" ++ fmtG 5 p.1 ++ "," ++ padLeft 5 (fmtG 6 p.2) ++ ")"

/-- The 2D coordinate rendering `"(%.5g,%.5g)" % coords.pos()` used by
`polygonbox`. -/
def asyPoint2g5 (p : Coord2) : String :=
  "(" ++ fmtG 5 p.1 ++ "," ++ fmtG 5 p.2 ++ ")"

/-- The 3D coordinate rendering `"(%.5g,%.5g,%.5g)" % coords.pos()[0]`
used by `point3dbox` (and `polygon3dbox`). -/
def asyPoint3 (p : Coord3) : String :=
  "(" ++ fmtG 5 p.1 ++ "," ++ fmtG 5 p.2.1 ++ "," ++ fmtG 5 p.2.2 ++ ")"

/-- Model of `linebox` (lines 237-245): one `draw` command per polyline, vertices
joined with `--`, the pen built by the `asy_create_pens` collaborator from
the edge color and the style's line width. -/
def linebox (pen_fn : PenFn) (edge_color : Option Color) (line_width : ℚ)
    (lines : List (List Coord2)) : String :=
  let pen := pen_fn edge_color none (some line_width) false
  strJoin (lines.map fun line =>
    "draw(" ++ strJoinSep "--" (line.map asyPoint2) ++ ", " ++ pen ++ ");")

/-- The `polygon(points)` generator nested in `arrowbox` (lines 78-81),
as the list of strings it yields; `"--cycle, % s);" % arrow_pen` renders
the pen unchanged (the space flag is a no-op for `%s`). -/
def arrow_polygon (arrow_pen : String) (points : List Coord2) : List String :=
  ["filldraw(", strJoinSep "--" (points.map asyPoint2),
    "--cycle, " ++ arrow_pen ++ ");"]

/-- Shape of the collaborator `asy_bezier` from
`mathics.formatter.asy_fns` (not part of the covered source): it is
variadic over `(degree, points)` pairs and yields path fragments; the
embedded formatters receive it as a parameter taking the argument list. -/
abbrev BezierFn := List (Nat × List Coord2) → List String

/-- Model of `beziercurvebox` (lines 92-102): for every polyline,
tessellate `(spline_degree, points)` through `asy_bezier`; a fragment
beginning with the degenerate `".."` marker gets the literal origin
coordinate `"(0.,0.)"` prefixed; each fragment is wrapped in a `draw`
command with the edge pen.  (The source lines after `return asy` are
unreachable and are not modelled.) -/
def beziercurvebox (pen_fn : PenFn) (tess : BezierFn) (edge_color : Option Color)
    (line_width : ℚ) (spline_degree : Nat) (lines : List (List Coord2)) : String :=
  let pen := pen_fn edge_color none (some line_width) false
  strJoin (lines.map fun line =>
    strJoin ((tess [(spline_degree, line)]).map fun path =>
      let path := if path.take 2 = ".." then "(0.,0.)" ++ path else path
      "draw(" ++ path ++ ", " ++ pen ++ ");"))

/-- A `FilledCurve` component: the list of `(tag, polyline)` pairs the
source transforms and hands to `asy_bezier(*transformed)`. -/
abbrev Component := List (Nat × List Coord2)

/-- The `components()` generator nested in `filledcurvebox` (lines
119-122), as the list of strings it yields: one `fill` command per
component, the tessellated sub-paths concatenated and closed with
`--cycle`. -/
def filledcurve_components (tess : BezierFn) (pen : String)
    (components : List Component) : List String :=
  components.map fun component =>
    "fill(" ++ strJoin (tess component) ++ "--cycle, " ++ pen ++ ");"

/-- Model of `filledcurvebox` (lines 112-124): build the pen from the edge
color and line width; if the pen is the falsy sentinel (the empty string)
substitute the literal `"currentpen"`; then emit the joined component
fills. -/
def filledcurvebox (pen_fn : PenFn) (tess : BezierFn) (edge_color : Option Color)
    (line_width : ℚ) (components : List Component) : String :=
  let pen0 := pen_fn edge_color none (some line_width) false
  let pen := if pen0 = "" then "currentpen" else pen0
  strJoin (filledcurve_components tess pen components)

/-- The face-color adjustment at the top of `point3dbox` (lines 252-256):
a face color whose RGB part is exactly `(1, 1, 1)` is replaced by black
with the original alpha (`to_rgba()[3]`); any other color is kept. -/
def point3dFaceColor (c : Color) : Color :=
  if c.r = qofNat 1 ∧ c.g = qofNat 1 ∧ c.b = qofNat 1 then ⟨qofNat 0, qofNat 0, qofNat 0, c.a⟩
  else c

/-- The per-polyline generator of `point3dbox` (lines 260-265), as the
list of strings it yields: one `path3 ... dot` command per polyline,
with the pen built from the (possibly adjusted) face color and
`is_face_element=False`. -/
def point3dboxCmds (pen_fn : PenFn) (face_color : Color)
    (lines : List (List Coord3)) : List String :=
  let pen := pen_fn none (some (point3dFaceColor face_color)) none false
  lines.map fun line =>
    "path3 g=" ++ strJoinSep "--" (line.map asyPoint3) ++ "--cycle;dot(g, " ++
      pen ++ ");"

/-- Model of `point3dbox` (lines 251-265): the joined per-polyline
commands. -/
def point3dbox (pen_fn : PenFn) (face_color : Color)
    (lines : List (List Coord3)) : String :=
  strJoin (point3dboxCmds pen_fn face_color lines)

/-- Model of `pointbox` (lines 271-280): one `dot` command per vertex of
every polyline; the coordinate pair is rendered through `%s`, i.e. the
Python tuple repr, which the embedding takes as a parameter `reprFn`. -/
def pointbox (reprFn : Coord2 → String) (pen_fn : PenFn)
    (face_color : Option Color) (lines : List (List Coord2)) : String :=
  let pen := pen_fn none face_color none false
  strJoin (lines.map fun line =>
    strJoin (line.map fun coords => "dot(" ++ reprFn coords ++ ", " ++ pen ++ ");"))

/-- The edge-flag list built for one polyline of a vertex-colored polygon
(line 342 of the source): `["0"] + ["1"] * (len(colors) - 1)`.  Python's
negative list repetition gives the empty list, matching truncated `Nat`
subtraction. -/
def edge_flags (colors : List Color) : List String :=
  "0" :: List.replicate (colors.length - 1) "1"

/-- Model of `polygonbox` (lines 315-357).  The collaborator
`asy_color` enters as `color_fn` (the source uses `_color(color)[0]`).
With `vertex_colors` present the source subscripts `self.vertex_colors[index]`
for every line index, so a vertex-color list shorter than the line list
raises `IndexError`; otherwise one `gouraudshade` command is emitted first,
and then — whenever the flat pen is neither falsy nor `"nullpen"` — one
`filldraw` per polyline on top. -/
def polygonbox (pen_fn : PenFn) (color_fn : Color → String)
    (edge_color : Option Color) (face_color : Option Color) (line_width : ℚ)
    (vertex_colors : Option (List (List Color))) (lines : List (List Coord2)) :
    Except PyError String :=
  let fc := match vertex_colors with
    | none => face_color
    | some _ => none
  let pens := pen_fn edge_color fc (some line_width) true
  let flat := if pens ≠ "" ∧ pens ≠ "nullpen" then
      strJoin (lines.map fun line =>
        "filldraw(" ++ (strJoinSep "--" (line.map asyPoint2g5) ++ "--cycle") ++
          ", " ++ pens ++ ");")
    else ""
  match vertex_colors with
  | none => Except.ok flat
  | some vcs =>
    if lines.length ≤ vcs.length then
      let paths := lines.map fun line =>
        strJoinSep "--" (line.map asyPoint2g5) ++ "--cycle"
      let colors := (vcs.take lines.length).map fun vc =>
        strJoinSep "," (vc.map color_fn)
      let edges := (vcs.take lines.length).map fun vc =>
        strJoinSep "," (edge_flags vc)
      Except.ok ("gouraudshade(" ++ strJoinSep "^^" paths ++ ", new pen[] \x7b" ++
        strJoinSep "," colors ++ "\x7d, new int[] \x7b" ++
        strJoinSep "," edges ++ "\x7d);" ++ flat)
    else Except.error PyError.indexError

/-- Dispatching a list of children whose registered formatters all return
text collects exactly those texts, in order. -/
theorem graphicselementsAux_map_ok (l : List String) :
    graphicselementsAux (l.map okElement) = Except.ok l := by
  induction l with
  | nil => rfl
  | cons s rest ih => simp [graphicselementsAux, okElement, ih, Except.map]

/-- An exception raised while formatting one child propagates out of the
collection loop unchanged, regardless of how many children succeeded
before it. -/
theorem graphicselementsAux_error (pre : List String) (e : Element)
    (rest : List Element) (err : PyError)
    (h : e.format_fn = some (Except.error err)) :
    graphicselementsAux (pre.map okElement ++ e :: rest) = Except.error err := by
  induction pre with
  | nil => simp [graphicselementsAux, h]
  | cons p ps ih => simp [graphicselementsAux, okElement, ih, Except.map]

/-- C1, counterexample: a scene whose two children format to `"a"` and
`"b"` produces `"a\nb"`, not the separator-free concatenation `"ab"` the
claim asserts — `graphicselements` joins the children with `"\n"`. -/
theorem C1_counterexample :
    graphicselements [okElement "a", okElement "b"] = Except.ok "a\nb" ∧
    graphicselements [okElement "a", okElement "b"] ≠ Except.ok ("a" ++ "b") := by
  refine ⟨rfl, ?_⟩
  intro h
  simp [graphicselements, graphicselementsAux, okElement, strJoinSep, Except.map] at h

/-- C1, amended: for every scene whose children all dispatch successfully,
the container formatter's output equals the children's texts in child
sequence order joined with a newline separator between consecutive
children. -/
theorem C1_amended (texts : List String) :
    graphicselements (texts.map okElement) = Except.ok (strJoinSep "\n" texts) := by
  simp [graphicselements, graphicselementsAux_map_ok, Except.map]

/-- C2: for a child whose variant tag has no registered formatter the
dispatch loop raises `NameError` — the fallback call `element.to_asy(offset)`
evaluates the unbound name `offset` before `to_asy` is invoked — even when
the element does provide the default conversion capability, so the
fallback never returns the element's own conversion. -/
theorem C2_unregistered_fallback (e : Element) (t : String) (rest : List Element)
    (h1 : e.format_fn = none) (_h2 : e.to_asy = some t) :
    graphicselements (e :: rest) = Except.error PyError.nameError := by
  simp [graphicselements, graphicselementsAux, h1, Except.map]

/-- C2, witness: a concrete unregistered element carrying a default
conversion still makes the container error with `NameError`. -/
theorem C2_unregistered_fallback_witness :
    graphicselements [⟨none, some "fallback"⟩] = Except.error PyError.nameError :=
  C2_unregistered_fallback ⟨none, some "fallback"⟩ "fallback" [] rfl rfl

/-- C3: the y coordinate of a 2D path point is rendered by `"%5g"` (field
width 5, default precision 6), not `"%.5g"`: `linebox` on the point
`(0, 1.234567)` emits the six-significant-digit literal `1.23457`, whereas
five-significant-digit formatting gives `1.2346`; the arrowhead `polygon`
helper of `arrowbox` shares the same format string. -/
theorem C3_five_digit_violation :
    linebox (fun _ _ _ _ => "p") none (mkRat 1 1) [[(mkRat 0 1, mkRat 1234567 1000000)]] =
      "draw((0,1.23457), p);" ∧
    fmtG 5 (mkRat 1234567 1000000) = "1.2346" ∧
    asyPoint2 (mkRat 0 1, mkRat 1234567 1000000) ≠
      "(" ++ fmtG 5 (mkRat 0 1) ++ "," ++ fmtG 5 (mkRat 1234567 1000000) ++ ")" ∧
    arrow_polygon "pen" [(mkRat 0 1, mkRat 1234567 1000000)] =
      ["filldraw(", "(0,1.23457)", "--cycle, pen);"] :=
  ⟨by decide, by decide, by decide, by decide⟩

/-- C4, counterexample: in a scene `[ok "a", raising child, ok "c"]` the
container returns only the propagated error — no text of the successfully
formatted siblings and no structured error list is produced. -/
theorem C4_counterexample :
    graphicselements [okElement "a",
        ⟨some (Except.error (PyError.custom "boom")), none⟩, okElement "c"] =
      Except.error (PyError.custom "boom") ∧
    (graphicselements [okElement "a",
        ⟨some (Except.error (PyError.custom "boom")), none⟩, okElement "c"]).toOption = none :=
  ⟨rfl, rfl⟩

/-- C4, amended: an error raised while formatting one child aborts the
whole scene: the container formatter returns that error unchanged and
produces no partial output for the siblings. -/
theorem C4_amended (pre : List String) (e : Element) (rest : List Element)
    (err : PyError) (h : e.format_fn = some (Except.error err)) :
    graphicselements (pre.map okElement ++ e :: rest) = Except.error err := by
  simp [graphicselements, graphicselementsAux_error pre e rest err h, Except.map]

/-- C4, witness: one succeeding child followed by a raising child yields
the raising child's error. -/
theorem C4_amended_witness :
    graphicselements (["x"].map okElement ++
        (⟨some (Except.error PyError.indexError), none⟩ : Element) :: []) =
      Except.error PyError.indexError :=
  C4_amended ["x"] _ [] PyError.indexError rfl

/-- C5: every `matrix(a, b, c, d, e, f)` call appends its operation tuple
re-ordered as `(e, f, a, c, b, d)`; in particular `matrix(1, 0, 0, 1, 5, 7)`
followed by `apply("draw(X);")` emits the tuple with the translate
components `(5, 7)` before the linear components `(1, 0, 0, 1)`. -/
theorem C5_matrix_order :
    (∀ (t : ASYTransform) (a b c d e f : ℚ),
      (t.matrix a b c d e f).transforms = t.transforms ++
        ["(" ++ fmtF e ++ ", " ++ fmtF f ++ ", " ++ fmtF a ++ ", " ++ fmtF c ++
          ", " ++ fmtF b ++ ", " ++ fmtF d ++ ")"]) ∧
    (ASYTransform.init.matrix (mkRat 1 1) (mkRat 0 1) (mkRat 0 1) (mkRat 1 1)
        (mkRat 5 1) (mkRat 7 1)).apply "draw(X);" =
      ASYTransform.template
        "(5.000000, 7.000000, 1.000000, 0.000000, 0.000000, 1.000000)" "draw(X);" :=
  ⟨fun _ _ _ _ _ _ _ => rfl, by decide⟩

/-- C6, counterexample: a polyline with an empty vertex-color list still
gets the single edge flag `0`, so the emitted flag list has length 1 while
the claim — universally quantified over the number of vertex colors —
demands length 0 there. -/
theorem C6_counterexample :
    polygonbox (fun _ _ _ _ => "nullpen") (fun _ => "c") none none (mkRat 1 1)
        (some [[]]) [[]] =
      Except.ok "gouraudshade(--cycle, new pen[] \x7b\x7d, new int[] \x7b0\x7d);" ∧
    (edge_flags []).length ≠ ([] : List Color).length :=
  ⟨rfl, by decide⟩

/-- C6, amended: for every polyline with a nonempty list of `n` vertex
colors, the emitted edge-flag list has length `n`, marks vertex 0 as open
(`"0"`) and every subsequent vertex as interior (`"1"`). -/
theorem C6_amended (colors : List Color) (h : colors ≠ []) :
    (edge_flags colors).length = colors.length ∧
    (edge_flags colors).head? = some "0" ∧
    (edge_flags colors).tail = List.replicate (colors.length - 1) "1" := by
  cases colors with
  | nil => exact absurd rfl h
  | cons c cs => exact ⟨by simp [edge_flags], rfl, rfl⟩

/-- C6, witness: for the colors `[red, green, blue]` the flag list is
exactly `["0", "1", "1"]` of length 3. -/
theorem C6_amended_witness :
    ([⟨qofNat 1, qofNat 0, qofNat 0, qofNat 1⟩, ⟨qofNat 0, qofNat 1, qofNat 0, qofNat 1⟩,
      ⟨qofNat 0, qofNat 0, qofNat 1, qofNat 1⟩] : List Color) ≠ [] ∧
    (edge_flags [⟨qofNat 1, qofNat 0, qofNat 0, qofNat 1⟩, ⟨qofNat 0, qofNat 1, qofNat 0, qofNat 1⟩,
      ⟨qofNat 0, qofNat 0, qofNat 1, qofNat 1⟩]).length = 3 ∧
    edge_flags [⟨qofNat 1, qofNat 0, qofNat 0, qofNat 1⟩, ⟨qofNat 0, qofNat 1, qofNat 0, qofNat 1⟩,
      ⟨qofNat 0, qofNat 0, qofNat 1, qofNat 1⟩] = ["0", "1", "1"] := by
  refine ⟨by decide, (C6_amended _ (by decide)).1.trans (by decide), by decide⟩

/-- C7, counterexample: for a `Point3D` polyline with two vertices the
formatter emits exactly one `dot` command (on the closed `path3` through
both vertices), not the two per-vertex dot commands the claim asserts;
the 2D `pointbox` on the analogous input does emit two. -/
theorem C7_counterexample :
    countSubstr "dot(" (point3dbox (fun _ _ _ _ => "p")
        ⟨qofNat 0, qofNat 0, qofNat 0, qofNat 1⟩
        [[(mkRat 0 1, mkRat 0 1, mkRat 0 1), (mkRat 1 1, mkRat 1 1, mkRat 1 1)]]) = 1 ∧
    ([(mkRat 0 1, mkRat 0 1, mkRat 0 1), (mkRat 1 1, mkRat 1 1, mkRat 1 1)] : List Coord3).length = 2 ∧
    countSubstr "dot(" (pointbox (fun _ => "(0.0, 0.0)") (fun _ _ _ _ => "p") none
        [[(mkRat 0 1, mkRat 0 1), (mkRat 1 1, mkRat 1 1)]]) = 2 :=
  ⟨by decide, by decide, by decide⟩

/-- C7, amended: `point3dbox` builds its face pen with
`is_face_element = false` from the (white-adjusted) face color, and emits
one `path3 ... dot` command per polyline — the command list has exactly
one entry per polyline, each dotting the closed path through all of that
polyline's vertices — rather than one dot command per vertex as in the 2D
`pointbox`. -/
theorem C7_amended (pen_fn : PenFn) (c : Color) (lines : List (List Coord3)) :
    point3dbox pen_fn c lines = strJoin (point3dboxCmds pen_fn c lines) ∧
    (point3dboxCmds pen_fn c lines).length = lines.length ∧
    ∀ i : Nat, (point3dboxCmds pen_fn c lines)[i]? = (lines[i]?).map (fun line =>
      "path3 g=" ++ strJoinSep "--" (line.map asyPoint3) ++ "--cycle;dot(g, " ++
        pen_fn none (some (point3dFaceColor c)) none false ++ ");") := by
  refine ⟨rfl, by simp [point3dboxCmds], fun i => ?_⟩
  simp [point3dboxCmds, List.getElem?_map]

/-- C8: when the first tessellated fragment of the first polyline of a
`BezierCurve` begins with the degenerate `".."` marker, the formatter
prefixes the literal origin coordinate `"(0.,0.)"` to it before wrapping
it in the leading `draw` command. -/
theorem C8_degenerate_prefix (pen_fn : PenFn) (tess : BezierFn) (ec : Option Color)
    (w : ℚ) (deg : Nat) (line : List Coord2) (rest : List (List Coord2))
    (p : String) (ps : List String)
    (h1 : tess [(deg, line)] = p :: ps) (h2 : p.take 2 = "..") :
    ∃ tail, beziercurvebox pen_fn tess ec w deg (line :: rest) =
      "draw(" ++ ("(0.,0.)" ++ p) ++ ", " ++ pen_fn ec none (some w) false ++ ");" ++ tail := by
  refine ⟨strJoin (ps.map fun path =>
      "draw(" ++ (if path.take 2 = ".." then "(0.,0.)" ++ path else path) ++ ", " ++
        pen_fn ec none (some w) false ++ ");") ++
    strJoin (rest.map fun l => strJoin ((tess [(deg, l)]).map fun path =>
      "draw(" ++ (if path.take 2 = ".." then "(0.,0.)" ++ path else path) ++ ", " ++
        pen_fn ec none (some w) false ++ ");")), ?_⟩
  simp [beziercurvebox, h1, h2, strJoin, String.append_assoc]

/-- C8, witness: a tessellator returning the single fragment
`"..controls"` makes the formatter emit
`draw((0.,0.)..controls, P);`. -/
theorem C8_degenerate_prefix_witness :
    ∃ tail, beziercurvebox (fun _ _ _ _ => "P") (fun _ => ["..controls"]) none
        (mkRat 1 1) 3 [[]] =
      "draw(" ++ ("(0.,0.)" ++ "..controls") ++ ", " ++ "P" ++ ");" ++ tail :=
  C8_degenerate_prefix _ _ none (mkRat 1 1) 3 [] [] "..controls" [] rfl rfl

/-- C9: a `Point3D` face color whose RGB part is exactly `(1, 1, 1)` is
replaced by black with the original alpha before the pen is built; every
other face color passes through unchanged. -/
theorem C9_white_face_color (c : Color) :
    (c.r = qofNat 1 ∧ c.g = qofNat 1 ∧ c.b = qofNat 1 →
      point3dFaceColor c = ⟨qofNat 0, qofNat 0, qofNat 0, c.a⟩) ∧
    (¬(c.r = qofNat 1 ∧ c.g = qofNat 1 ∧ c.b = qofNat 1) →
      point3dFaceColor c = c) := by
  constructor <;> intro h <;> simp [point3dFaceColor, h]

/-- C9, witness: half-transparent white becomes half-transparent black;
opaque red is unchanged. -/
theorem C9_white_face_color_witness :
    point3dFaceColor ⟨qofNat 1, qofNat 1, qofNat 1, mkRat 1 2⟩ =
      ⟨qofNat 0, qofNat 0, qofNat 0, mkRat 1 2⟩ ∧
    point3dFaceColor ⟨qofNat 1, qofNat 0, qofNat 0, qofNat 1⟩ =
      ⟨qofNat 1, qofNat 0, qofNat 0, qofNat 1⟩ :=
  ⟨(C9_white_face_color _).1 ⟨rfl, rfl, rfl⟩, (C9_white_face_color _).2 (by decide)⟩

/-- C10: when the pen built from the edge color and line width is the
empty sentinel, `filledcurvebox` substitutes the literal `"currentpen"`,
and the component list still yields exactly one `fill` command per
component. -/
theorem C10_sentinel_currentpen (pen_fn : PenFn) (tess : BezierFn) (ec : Option Color)
    (w : ℚ) (comps : List Component) (h : pen_fn ec none (some w) false = "") :
    filledcurvebox pen_fn tess ec w comps =
      strJoin (filledcurve_components tess "currentpen" comps) ∧
    (filledcurve_components tess "currentpen" comps).length = comps.length := by
  constructor
  · simp [filledcurvebox, h]
  · simp [filledcurve_components]

/-- C10, witness: with an empty pen and a one-component curve the emitted
text is a single fill command using `currentpen`. -/
theorem C10_sentinel_currentpen_witness :
    filledcurvebox (fun _ _ _ _ => "") (fun _ => ["seg"]) none (mkRat 1 1)
        [[(3, [])]] = "fill(seg--cycle, currentpen);" ∧
    (filledcurve_components (fun _ => ["seg"]) "currentpen" [[(3, [])]]).length = 1 := by
  have h := C10_sentinel_currentpen (fun _ _ _ _ => "") (fun _ => ["seg"]) none
    (mkRat 1 1) [[(3, [])]] rfl
  exact ⟨h.1.trans (by decide), h.2⟩

end Asy
